import Mathlib

/-!
Shallow embedding of the spatial core of the grid-based FPS repository:
the height-aware collision grid (src/level.js), the player movement and
collision resolver (src/player.js), the monster state machine and the
swept projectile (src/monster.js), and the instant hitscan (src/main.js).

Real-valued JavaScript numbers are modelled as rationals.  Calls into the
external three.js library (Math.sqrt inside Vector3.length/normalize,
Vector3.angleTo, Raycaster.intersectObjects) are modelled as explicit
function or list parameters, since that library is not part of the
repository; everything else is translated directly from the source.
-/

/-- A 3-component vector, modelling THREE.Vector3 with rational fields. -/
structure Vec3 where
  x : ℚ
  y : ℚ
  z : ℚ
deriving Repr, DecidableEq

def Vec3.add (a b : Vec3) : Vec3 := ⟨a.x + b.x, a.y + b.y, a.z + b.z⟩

def Vec3.sub (a b : Vec3) : Vec3 := ⟨a.x - b.x, a.y - b.y, a.z - b.z⟩

def Vec3.neg (a : Vec3) : Vec3 := ⟨-a.x, -a.y, -a.z⟩

def Vec3.scale (a : Vec3) (s : ℚ) : Vec3 := ⟨a.x * s, a.y * s, a.z * s⟩

/-- Squared Euclidean length; THREE.Vector3.lengthSq. -/
def Vec3.lenSq (a : Vec3) : ℚ := a.x * a.x + a.y * a.y + a.z * a.z

/-- Cross product; THREE.Vector3.cross. -/
def Vec3.cross (a b : Vec3) : Vec3 :=
  ⟨a.y * b.z - a.z * b.y, a.z * b.x - a.x * b.z, a.x * b.y - a.y * b.x⟩

/-- Normalization, THREE.Vector3.normalize: divide by length, or by 1 when
the length is 0.  The square-root of the float library is passed in as the
function parameter sq applied to the squared length. -/
def Vec3.normalize (sq : ℚ → ℚ) (a : Vec3) : Vec3 :=
  let len := sq a.lenSq
  a.scale (1 / (if len = 0 then 1 else len))

/-- One grid square of the level: src/level.js cell record
\x7b type, height, ceilHeight, isWall, hasItem \x7d (the type string is
visual only and dropped). -/
structure Cell where
  isWall : Bool
  height : ℚ
  ceilHeight : ℚ
  hasItem : Bool
deriving Repr, DecidableEq

/-- The default cell produced at the top of the parse loop in
Level._parseMap: floor at height 0, ceiling 4, not a wall, no item. -/
def Cell.base : Cell := ⟨false, 0, 4, false⟩

/-- Monster kinds; src stores the strings imp and demon. -/
inductive MKind where
  | imp
  | demon
deriving Repr, DecidableEq

/-- A monster spawn record pushed by Level._parseMap for codes 6 and 7. -/
structure Spawn where
  kind : MKind
  x : ℚ
  z : ℚ
deriving Repr, DecidableEq

/-- The collision-relevant state of src/level.js Level: the parsed grid,
its dimensions, the cell size (4 in the constructor) and the spawn list. -/
structure Level where
  grid : List (List Cell)
  rows : ℕ
  cols : ℕ
  cellSize : ℚ
  monsterSpawns : List Spawn
deriving Repr, DecidableEq

/-- Code-to-cell mapping of the switch in Level._parseMap.  Codes 6 and 7
also push a spawn record, handled separately in spawnsOf.  The wildcard
models both unrecognized codes and the JavaScript undefined read off the
end of a short row, which falls into the default branch. -/
def codeToCell : Int → Cell
  | 1 => ⟨true, 0, 4, false⟩
  | 0 => ⟨false, 0, 4, false⟩
  | 2 => ⟨false, 0, 4, true⟩
  | 3 => ⟨false, 3 / 2, 4, false⟩
  | 4 => ⟨false, 3, 4, false⟩
  | 5 => ⟨false, -2, 4, false⟩
  | 6 => ⟨false, 0, 4, false⟩
  | 7 => ⟨false, 0, 4, false⟩
  | _ => ⟨false, 0, 4, false⟩

/-- The value read at mapData[z][x] in the parse loop: a present entry, or
none for the undefined read past the end of a short row. -/
def mapAt (mapData : List (List Int)) (z x : ℕ) : Option Int :=
  (mapData.getD z [])[x]?

/-- One parsed cell of the loop body of Level._parseMap. -/
def parseCell (mapData : List (List Int)) (z x : ℕ) : Cell :=
  match mapAt mapData z x with
  | some v => codeToCell v
  | none => Cell.base

/-- Spawn records collected by Level._parseMap for codes 6 (imp) and
7 (demon), at world position (x * cellSize, z * cellSize). -/
def spawnsOf (mapData : List (List Int)) (cols : ℕ) (cellSize : ℚ) : List Spawn :=
  ((List.range mapData.length).map fun z =>
    (List.range cols).filterMap fun x =>
      match mapAt mapData z x with
      | some 6 => some ⟨MKind.imp, (x : ℚ) * cellSize, (z : ℚ) * cellSize⟩
      | some 7 => some ⟨MKind.demon, (x : ℚ) * cellSize, (z : ℚ) * cellSize⟩
      | _ => none).flatten

/-- Level._parseMap together with the surrounding constructor.  An empty
map crashes in JavaScript (reading mapData[0].length of undefined throws a
TypeError, aborting construction), modelled as none.  Every non-empty map
parses: rows is the outer length, cols is the length of the first row,
short rows are padded through the default switch branch and long rows are
truncated, because x only ranges over the first row length. -/
def parseMap (mapData : List (List Int)) : Option Level :=
  match mapData with
  | [] => none
  | row0 :: _ =>
    let rows := mapData.length
    let cols := row0.length
    some
      { grid := (List.range rows).map fun z => (List.range cols).map fun x => parseCell mapData z x
        rows := rows
        cols := cols
        cellSize := 4
        monsterSpawns := spawnsOf mapData cols 4 }

/-- JavaScript Math.round: round half toward positive infinity. -/
def jsRound (q : ℚ) : ℤ := ⌊q + 1 / 2⌋

/-- The cell the queries read once the rounded indices pass the bounds
test; out-of-range reads (impossible for well-formed levels) default. -/
def Level.cellAt (l : Level) (gx gz : ℤ) : Cell :=
  (l.grid.getD gz.toNat []).getD gx.toNat Cell.base

/-- Level.isWall: round world coordinates to grid indices; inside the
grid return the cell wall flag, outside return true. -/
def Level.isWall (l : Level) (x z : ℚ) : Bool :=
  let gridX := jsRound (x / l.cellSize)
  let gridZ := jsRound (z / l.cellSize)
  if 0 ≤ gridZ ∧ gridZ < (l.rows : ℤ) ∧ 0 ≤ gridX ∧ gridX < (l.cols : ℤ) then
    (l.cellAt gridX gridZ).isWall
  else
    true

/-- Level.getFloorHeight: same cell resolution as isWall; the void
sentinel -100 outside the grid. -/
def Level.getFloorHeight (l : Level) (x z : ℚ) : ℚ :=
  let gridX := jsRound (x / l.cellSize)
  let gridZ := jsRound (z / l.cellSize)
  if 0 ≤ gridZ ∧ gridZ < (l.rows : ℤ) ∧ 0 ≤ gridX ∧ gridX < (l.cols : ℤ) then
    (l.cellAt gridX gridZ).height
  else
    -100

/-- Player._canMoveTo: entry into (x, z) is allowed when the target cell
is not a wall and its floor is at most stepHeight above the floor height
currentY passed in by the caller. -/
def canMoveTo (l : Level) (stepHeight : ℚ) (x z currentY : ℚ) : Bool :=
  if l.isWall x z then false
  else if l.getFloorHeight x z > currentY + stepHeight then false
  else true

/-- Result of one player collision-resolution step: the new position, the
new velocity and the onGround flag. -/
structure MoveResult where
  pos : Vec3
  vel : Vec3
  onGround : Bool
deriving Repr, DecidableEq

/-- The collision-resolution part of Player.update (player.js lines
158-189): per-axis horizontal blocking against _canMoveTo using the floor
height of the starting position, with the Z test reading the post-X
x-coordinate, then vertical integration of dy and the snap to the floor
at the final horizontal position.  dx, dz, dy are the displacement
components already computed from velocity, orientation and delta. -/
def playerMove (l : Level) (stepHeight height : ℚ) (pos vel : Vec3)
    (dx dz dy : ℚ) : MoveResult :=
  let currentFloorY := l.getFloorHeight pos.x pos.z
  let moveX := canMoveTo l stepHeight (pos.x + dx) pos.z currentFloorY
  let x1 := if moveX then pos.x + dx else pos.x
  let vx1 := if moveX then vel.x else 0
  let moveZ := canMoveTo l stepHeight x1 (pos.z + dz) currentFloorY
  let z1 := if moveZ then pos.z + dz else pos.z
  let vz1 := if moveZ then vel.z else 0
  let y1 := pos.y + dy
  let newFloorY := l.getFloorHeight x1 z1
  if y1 < newFloorY + height then
    ⟨⟨x1, newFloorY + height, z1⟩, ⟨vx1, 0, vz1⟩, true⟩
  else
    ⟨⟨x1, y1, z1⟩, ⟨vx1, vel.y, vz1⟩, false⟩

/-- Monster states from src/monster.js (attack and hurt are listed in the
comment but never entered by the code). -/
inductive MState where
  | idle
  | chase
  | dead
deriving Repr, DecidableEq

/-- The core state of src/monster.js Monster. -/
structure Monster where
  kind : MKind
  position : Vec3
  health : ℚ
  state : MState
  strafeTimer : ℚ
  strafeDir : ℚ
deriving Repr, DecidableEq

/-- The Monster constructor: spawn at (x, 0, z), health 100 for a demon
and 40 for an imp, state idle, strafe timer 0 and strafe direction 1. -/
def Monster.spawn (kind : MKind) (x z : ℚ) : Monster :=
  { kind := kind
    position := ⟨x, 0, z⟩
    health := if kind = MKind.demon then 100 else 40
    state := MState.idle
    strafeTimer := 0
    strafeDir := 1 }

/-- Movement speed set in the Monster constructor. -/
def Monster.speed (m : Monster) : ℚ := if m.kind = MKind.demon then 6 else 3

/-- The minDistance field set in the Monster constructor. -/
def monsterMinDistance : ℚ := 8

/-- Monster.die: only the state (and visual mesh, dropped here) change;
this.position is untouched. -/
def Monster.die (m : Monster) : Monster := { m with state := MState.dead }

/-- Monster.takeDamage, the part that runs synchronously: health is
decremented unconditionally.  The death check is inside a
setTimeout(..., 100) callback, modelled separately as damageTimeout. -/
def Monster.takeDamage (m : Monster) (amount : ℚ) : Monster :=
  { m with health := m.health - amount }

/-- The setTimeout callback scheduled by Monster.takeDamage: 100 ms later
it calls die when health has dropped to 0 or below (the other branches
only reset the visual tint). -/
def Monster.damageTimeout (m : Monster) : Monster :=
  if m.health ≤ 0 then m.die else m

/-- Monster.update (monster.js lines 61-128).  Early-returns when dead.
Otherwise: detection within distance 30 switches to chase; in chase the
approach/retreat/strafe move vector is built, normalized, scaled by
speed times delta and applied per axis against Level.isWall; finally the
y coordinate is snapped to the floor height plus the sprite offset.
The float square root used by distanceTo and normalize is the parameter
sq (applied to a squared length), and the two Math.random() draws of the
strafe-timer reroll are the parameters r1 and r2. -/
def Monster.update (m : Monster) (l : Level) (sq : ℚ → ℚ) (delta : ℚ)
    (playerPos : Vec3) (r1 r2 : ℚ) : Monster :=
  if m.state = MState.dead then m
  else
    let dist := sq (Vec3.lenSq (Vec3.sub m.position playerPos))
    let st := if dist < 30 then MState.chase else m.state
    let m1 :=
      if st = MState.chase then
        let toPlayer := Vec3.sub playerPos m.position
        let direction := Vec3.normalize sq ⟨toPlayer.x, 0, toPlayer.z⟩
        let approach : Vec3 :=
          if dist > monsterMinDistance then direction
          else if dist < monsterMinDistance - 2 then direction.neg
          else ⟨0, 0, 0⟩
        let timer := if dist < 20 then m.strafeTimer - delta else m.strafeTimer
        let reroll := dist < 20 ∧ m.strafeTimer - delta ≤ 0
        let timer2 := if reroll then 1 + r1 * 2 else timer
        let sdir := if reroll then (if r2 > 1 / 2 then (1 : ℚ) else -1) else m.strafeDir
        let moveVec0 :=
          if dist < 20 then
            let right := Vec3.normalize sq (Vec3.cross ⟨0, 1, 0⟩ direction)
            Vec3.add approach (right.scale (sdir * (8 / 10)))
          else approach
        let moveVec := Vec3.normalize sq moveVec0
        let moveDist := m.speed * delta
        let nextX := m.position.x + moveVec.x * moveDist
        let nextZ := m.position.z + moveVec.z * moveDist
        let x1 := if l.isWall nextX m.position.z then m.position.x else nextX
        let z1 := if l.isWall x1 nextZ then m.position.z else nextZ
        { m with
            position := ⟨x1, m.position.y, z1⟩
            state := st
            strafeTimer := timer2
            strafeDir := sdir }
      else { m with state := st }
    let floorH := l.getFloorHeight m1.position.x m1.position.z
    let yOff : ℚ := if m.kind = MKind.demon then 5 / 4 else 1
    { m1 with position := ⟨m1.position.x, floorH + yOff, m1.position.z⟩ }

/-- Replace the element at an index, leaving every other element and the
length unchanged; out-of-range indices are a no-op.  Models the effect of
mutating the one monster found by reference in a list. -/
def modifyIdx (f : α → α) : ℕ → List α → List α
  | _, [] => []
  | 0, a :: as => f a :: as
  | n + 1, a :: as => a :: modifyIdx f n as

/-- Core state of src/monster.js Projectile: position, last-tick
position, direction (normalized in the constructor), speed 40 and the
alive flag. -/
structure Projectile where
  position : Vec3
  lastPosition : Vec3
  direction : Vec3
  speed : ℚ
  alive : Bool
deriving Repr, DecidableEq

/-- The Projectile constructor: both positions start at the firing
origin, the direction is normalized, speed is 40 and alive is true. -/
def Projectile.fire (sq : ℚ → ℚ) (position direction : Vec3) : Projectile :=
  { position := position
    lastPosition := position
    direction := direction.normalize sq
    speed := 40
    alive := true }

/-- A hit selected by the projectile sweep: either a level surface or the
monster at a given index of the monster list, both tagged with the
distance from the segment start reported by the raycaster. -/
inductive HitSel where
  | wall (d : ℚ)
  | monster (d : ℚ) (idx : ℕ)
deriving Repr, DecidableEq

/-- Distance from the segment start of a selected hit. -/
def HitSel.dist : HitSel → ℚ
  | .wall d => d
  | .monster d _ => d

/-- The closest-hit selection of Projectile.update (monster.js lines
205-219): take the first level hit if any, then replace it by the first
monster hit when that one is strictly closer or no level hit exists.
The raycaster returns each list sorted by distance, so the heads are the
per-list minima. -/
def selectHit (levelHits : List ℚ) (monsterHits : List (ℚ × ℕ)) : Option HitSel :=
  match levelHits.head?, monsterHits.head? with
  | none, none => none
  | some wd, none => some (HitSel.wall wd)
  | none, some (md, i) => some (HitSel.monster md i)
  | some wd, some (md, i) =>
    if md < wd then some (HitSel.monster md i) else some (HitSel.wall wd)

/-- Projectile.onHit: damage the hit monster by 20 when the hit is a
monster one and the mesh lookup finds it (an in-range index here), then
destroy the projectile in every case.  The impact effect is visual. -/
def Projectile.onHit (p : Projectile) (h : HitSel) (monsters : List Monster) :
    Projectile × List Monster :=
  let ms :=
    match h with
    | .wall _ => monsters
    | .monster _ i => modifyIdx (fun m => m.takeDamage 20) i monsters
  ({ p with alive := false }, ms)

/-- Projectile.update (monster.js lines 177-230).  A dead projectile is a
no-op.  Otherwise the projectile advances by direction * speed * delta;
when the displacement is nonzero the raycaster results against the level
meshes and the non-dead monster meshes (the input lists levelHits and
monsterHits, each sorted by distance and bounded by the segment length)
are resolved to the single closest hit and acted on; finally the
projectile is destroyed when its distance from the world origin exceeds
1000 (the code compares position.length() with 1000, modelled by the
equivalent squared comparison). -/
def Projectile.update (p : Projectile) (delta : ℚ) (levelHits : List ℚ)
    (monsterHits : List (ℚ × ℕ)) (monsters : List Monster) :
    Projectile × List Monster :=
  if p.alive = false then (p, monsters)
  else
    let displacement := p.direction.scale (p.speed * delta)
    let p1 := { p with lastPosition := p.position
                       position := p.position.add displacement }
    let (p2, ms2) :=
      if displacement.lenSq > 0 then
        match selectHit levelHits monsterHits with
        | some h => p1.onHit h monsters
        | none => (p1, monsters)
      else (p1, monsters)
    if p2.position.lenSq > 1000000 then ({ p2 with alive := false }, ms2)
    else (p2, ms2)

/-- The per-monster validity test of the instant hitscan in main.js
player.onShoot: skip dead monsters, then require distance under 50 and
angle between the aim direction and the normalized to-monster vector
under 0.2 radians.  The float library calls are the parameters sq
(square root, applied to a squared length) and ang (THREE.Vector3.angleTo
of the aim direction and the normalized to-monster vector). -/
def hitTest (sq : ℚ → ℚ) (ang : Vec3 → Vec3 → ℚ) (playerPos playerDir : Vec3)
    (m : Monster) : Bool :=
  if m.state = MState.dead then false
  else
    let toMonster := Vec3.sub m.position playerPos
    let dist := sq toMonster.lenSq
    let angle := ang playerDir (toMonster.normalize sq)
    decide (dist < 50) && decide (angle < 2 / 10)

/-- The monster loop of player.onShoot in main.js: walk the monster list
in order, skip dead monsters, and on the first monster passing the
distance-and-angle test apply takeDamage 20 and break. -/
def shootScan (sq : ℚ → ℚ) (ang : Vec3 → Vec3 → ℚ) (playerPos playerDir : Vec3) :
    List Monster → List Monster
  | [] => []
  | m :: rest =>
    if m.state = MState.dead then m :: shootScan sq ang playerPos playerDir rest
    else if hitTest sq ang playerPos playerDir m then m.takeDamage 20 :: rest
    else m :: shootScan sq ang playerPos playerDir rest

/-- Index of the first list element passing a test, if any. -/
def firstIdx (valid : α → Bool) : List α → Option ℕ
  | [] => none
  | a :: as => if valid a then some 0 else (firstIdx valid as).map (· + 1)

/-- A plain wall cell, as produced for map code 1. -/
def Cell.wall : Cell := ⟨true, 0, 4, false⟩

/-- The 3x3 corridor level of spec scenario 1: a single floor cell at
grid position (1, 1) surrounded by walls. -/
def corridor : Level :=
  { grid := [[Cell.wall, Cell.wall, Cell.wall],
             [Cell.wall, Cell.base, Cell.wall],
             [Cell.wall, Cell.wall, Cell.wall]]
    rows := 3
    cols := 3
    cellSize := 4
    monsterSpawns := [] }

/-- A one-cell level with a single height-0 floor cell. -/
def flat1 : Level :=
  { grid := [[Cell.base]]
    rows := 1
    cols := 1
    cellSize := 4
    monsterSpawns := [] }

/-- A 2x2 level with a wall at grid (1, 0), used to exhibit a diagonal
move blocked on X but allowed on Z. -/
def corner : Level :=
  { grid := [[Cell.base, Cell.wall],
             [Cell.base, Cell.base]]
    rows := 2
    cols := 2
    cellSize := 4
    monsterSpawns := [] }

/-- A dead imp used as concrete counterexample input. -/
def deadImp : Monster :=
  { kind := MKind.imp
    position := ⟨2, 1, 2⟩
    health := 0
    state := MState.dead
    strafeTimer := 0
    strafeDir := 1 }


/-- C3: for every rational world coordinate pair, when rounding
coordinate / cellSize with Math.round yields in-grid indices, isWall and
getFloorHeight return exactly that cell's wall flag and floor height;
when the rounded indices fall outside the grid, isWall returns true and
getFloorHeight returns -100. -/
theorem C3_query_cell_resolution (l : Level) (x z : ℚ) :
    (0 ≤ jsRound (z / l.cellSize) → jsRound (z / l.cellSize) < (l.rows : ℤ) →
     0 ≤ jsRound (x / l.cellSize) → jsRound (x / l.cellSize) < (l.cols : ℤ) →
      l.isWall x z = (l.cellAt (jsRound (x / l.cellSize)) (jsRound (z / l.cellSize))).isWall ∧
      l.getFloorHeight x z =
        (l.cellAt (jsRound (x / l.cellSize)) (jsRound (z / l.cellSize))).height) ∧
    (¬ (0 ≤ jsRound (z / l.cellSize) ∧ jsRound (z / l.cellSize) < (l.rows : ℤ) ∧
        0 ≤ jsRound (x / l.cellSize) ∧ jsRound (x / l.cellSize) < (l.cols : ℤ)) →
      l.isWall x z = true ∧ l.getFloorHeight x z = -100) := by
  constructor
  · intro h1 h2 h3 h4
    constructor
    · simp only [Level.isWall]
      rw [if_pos ⟨h1, h2, h3, h4⟩]
    · simp only [Level.getFloorHeight]
      rw [if_pos ⟨h1, h2, h3, h4⟩]
  · intro h
    constructor
    · simp only [Level.isWall]
      rw [if_neg h]
    · simp only [Level.getFloorHeight]
      rw [if_neg h]

/-- Witness for C3 on the corridor level: the point (4.3, 3.9) rounds to
the in-grid floor cell (1, 1), where isWall is false and the floor height
is 0; the point (-3, 0) rounds to column -1, outside the grid, where
isWall is true and the floor height is -100. -/
theorem C3_query_cell_resolution_witness :
    corridor.isWall (43 / 10) (39 / 10) = false ∧
    corridor.getFloorHeight (43 / 10) (39 / 10) = 0 ∧
    corridor.isWall (-3) 0 = true ∧
    corridor.getFloorHeight (-3) 0 = -100 := by
  have hin := (C3_query_cell_resolution corridor (43 / 10) (39 / 10)).1
  have hout := (C3_query_cell_resolution corridor (-3) 0).2
  have hzr : jsRound ((39 / 10 : ℚ) / corridor.cellSize) = 1 := by
    norm_num [jsRound, corridor]
  have hxr : jsRound ((43 / 10 : ℚ) / corridor.cellSize) = 1 := by
    norm_num [jsRound, corridor]
  have hxo : jsRound ((-3 : ℚ) / corridor.cellSize) = -1 := by
    norm_num [jsRound, corridor]
  rw [hzr, hxr] at hin
  rw [hxo] at hout
  have hin2 := hin (by norm_num) (by norm_num [corridor]) (by norm_num) (by norm_num [corridor])
  have hout2 := hout (by intro h; omega)
  refine ⟨?_, ?_, hout2.1, hout2.2⟩
  · rw [hin2.1]; rfl
  · rw [hin2.2]; rfl

/-- C5 counterexample: the claim states that for a Dead agent takeDamage
leaves health unchanged, but Monster.takeDamage decrements health
unconditionally before any state check: a dead imp at health 0 drops to
health -20. -/
theorem C5_dead_takeDamage_counterexample :
    ¬ ((deadImp.takeDamage 20).health = deadImp.health) := by
  norm_num [Monster.takeDamage, deadImp]

/-- C5 amended: once Dead, update is a complete no-op (so position and
health never change through update), and takeDamage leaves position and
state unchanged but still decrements health by the given amount. -/
theorem C5_dead_monotonic (m : Monster) (l : Level) (sq : ℚ → ℚ)
    (delta : ℚ) (playerPos : Vec3) (r1 r2 a : ℚ)
    (hdead : m.state = MState.dead) :
    m.update l sq delta playerPos r1 r2 = m ∧
    (m.takeDamage a).position = m.position ∧
    (m.takeDamage a).state = MState.dead ∧
    (m.takeDamage a).health = m.health - a ∧
    ((m.takeDamage a).damageTimeout).position = m.position ∧
    ((m.takeDamage a).damageTimeout).state = MState.dead := by
  refine ⟨?_, rfl, hdead, rfl, ?_, ?_⟩
  · simp [Monster.update, hdead]
  · simp only [Monster.damageTimeout, Monster.die, Monster.takeDamage]
    split <;> rfl
  · simp only [Monster.damageTimeout, Monster.die, Monster.takeDamage]
    split
    · rfl
    · exact hdead

/-- Witness for C5 amended at the concrete dead imp. -/
theorem C5_dead_monotonic_witness :
    deadImp.update flat1 id 1 ⟨0, 0, 0⟩ 0 0 = deadImp ∧
    (deadImp.takeDamage 20).position = deadImp.position ∧
    (deadImp.takeDamage 20).state = MState.dead ∧
    (deadImp.takeDamage 20).health = deadImp.health - 20 := by
  have h := C5_dead_monotonic deadImp flat1 id 1 ⟨0, 0, 0⟩ 0 0 20 rfl
  exact ⟨h.1, h.2.1, h.2.2.1, h.2.2.2.1⟩

/-- C6: on the failing input (an imp with 40 health taking two
takeDamage(20) calls) the code leaves the monster with health 0 but in a
non-Dead state when takeDamage returns: the Dead transition only happens
when the setTimeout callback scheduled by takeDamage fires 100 ms later.
The same holds for five takeDamage(20) calls on a 100-health demon, while
a single takeDamage(20) on the demon leaves it alive at health 80 even
after the callback, as the claim says. -/
theorem C6_death_transition_deferred :
    ((Monster.spawn MKind.imp 0 0).takeDamage 20).takeDamage 20 =
      { Monster.spawn MKind.imp 0 0 with health := 0 } ∧
    (((Monster.spawn MKind.imp 0 0).takeDamage 20).takeDamage 20).state ≠
      MState.dead ∧
    ((((Monster.spawn MKind.imp 0 0).takeDamage 20).takeDamage 20).damageTimeout).state =
      MState.dead ∧
    (((((Monster.spawn MKind.demon 0 0).takeDamage 20).takeDamage 20).takeDamage
        20).takeDamage 20).takeDamage 20 =
      { Monster.spawn MKind.demon 0 0 with health := 0 } ∧
    ((((((Monster.spawn MKind.demon 0 0).takeDamage 20).takeDamage 20).takeDamage
        20).takeDamage 20).takeDamage 20).state ≠ MState.dead ∧
    (((((((Monster.spawn MKind.demon 0 0).takeDamage 20).takeDamage 20).takeDamage
        20).takeDamage 20).takeDamage 20).damageTimeout).state = MState.dead ∧
    ((Monster.spawn MKind.demon 0 0).takeDamage 20).health = 80 ∧
    (((Monster.spawn MKind.demon 0 0).takeDamage 20).damageTimeout).state ≠
      MState.dead := by
  have himp : (if MKind.imp = MKind.demon then (100 : ℚ) else 40) = 40 :=
    if_neg (by intro h; cases h)
  have hdem : (if MKind.demon = MKind.demon then (100 : ℚ) else 40) = 100 := if_pos rfl
  have hid : MState.idle ≠ MState.dead := by intro h; cases h
  norm_num [Monster.spawn, Monster.takeDamage, Monster.damageTimeout, Monster.die,
    himp, hdem, hid]

/-- C7 counterexample: the ragged map [[1], [1, 0]] does not abort with
any error; parsing succeeds, refuting the claim that non-rectangular
input fails with MalformedMap. -/
theorem C7_ragged_map_accepted : (parseMap [[1], [1, 0]]).isSome = true := rfl

/-- C7 amended: level construction aborts only for the empty map (the
constructor crashes reading the first row of undefined); every non-empty
map, rectangular or not, parses successfully with rows taken from the
outer length and cols from the first row, short rows being padded with
default floor cells and long rows truncated. -/
theorem C7_only_empty_fails (mapData : List (List Int)) :
    (parseMap mapData = none ↔ mapData = []) ∧
    (∀ l : Level, parseMap mapData = some l →
      l.rows = mapData.length ∧ l.cols = (mapData.headD []).length) := by
  cases mapData with
  | nil => simp [parseMap]
  | cons row rest =>
    constructor
    · simp [parseMap]
    · intro l hl
      simp only [parseMap] at hl
      cases hl
      simp

/-- Witness for C7 amended at the ragged map [[1], [1, 0]]: parsing
succeeds with 2 rows and 1 column. -/
theorem C7_only_empty_fails_witness :
    (parseMap [[1], [1, 0]]).map Level.rows = some 2 ∧
    (parseMap [[1], [1, 0]]).map Level.cols = some 1 := by
  have h := C7_only_empty_fails [[1], [1, 0]]
  cases heq : parseMap [[1], [1, 0]] with
  | none => exact absurd (h.1.mp heq) (by simp)
  | some l =>
    have h2 := h.2 l heq
    exact ⟨by simp [h2.1], by simp [h2.2]⟩

/-- Projection helper: the resulting x coordinate of playerMove. -/
theorem playerMove_pos_x (l : Level) (s h : ℚ) (pos vel : Vec3) (dx dz dy : ℚ) :
    (playerMove l s h pos vel dx dz dy).pos.x =
      (if canMoveTo l s (pos.x + dx) pos.z (l.getFloorHeight pos.x pos.z) then pos.x + dx
       else pos.x) := by
  simp only [playerMove]
  repeat' split
  all_goals rfl

/-- Projection helper: the resulting x velocity of playerMove. -/
theorem playerMove_vel_x (l : Level) (s h : ℚ) (pos vel : Vec3) (dx dz dy : ℚ) :
    (playerMove l s h pos vel dx dz dy).vel.x =
      (if canMoveTo l s (pos.x + dx) pos.z (l.getFloorHeight pos.x pos.z) then vel.x
       else 0) := by
  simp only [playerMove]
  repeat' split
  all_goals rfl

/-- Projection helper: the resulting z coordinate of playerMove, whose
blocking test reads the post-X x coordinate. -/
theorem playerMove_pos_z (l : Level) (s h : ℚ) (pos vel : Vec3) (dx dz dy : ℚ) :
    (playerMove l s h pos vel dx dz dy).pos.z =
      (if canMoveTo l s (playerMove l s h pos vel dx dz dy).pos.x (pos.z + dz)
          (l.getFloorHeight pos.x pos.z) then pos.z + dz
       else pos.z) := by
  rw [playerMove_pos_x]
  simp only [playerMove]
  repeat' split
  all_goals rfl

/-- Projection helper: the resulting z velocity of playerMove. -/
theorem playerMove_vel_z (l : Level) (s h : ℚ) (pos vel : Vec3) (dx dz dy : ℚ) :
    (playerMove l s h pos vel dx dz dy).vel.z =
      (if canMoveTo l s (playerMove l s h pos vel dx dz dy).pos.x (pos.z + dz)
          (l.getFloorHeight pos.x pos.z) then vel.z
       else 0) := by
  rw [playerMove_pos_x]
  simp only [playerMove]
  repeat' split
  all_goals rfl

/-- C2: per-axis horizontal resolution.  Entry on an axis is permitted
exactly when the target cell is not a wall and its floor height is at
most the current floor height (read at the starting position) plus
stepHeight; a blocked axis keeps its position coordinate and zeroes its
velocity component; the Z test reads the post-X x coordinate; and on the
corner level a diagonal move is blocked on X while succeeding on Z. -/
theorem C2_per_axis_stepup (l : Level) (s h : ℚ) (pos vel : Vec3) (dx dz dy : ℚ) :
    (∀ x z cy : ℚ, canMoveTo l s x z cy = true ↔
        (l.isWall x z = false ∧ l.getFloorHeight x z ≤ cy + s)) ∧
    (playerMove l s h pos vel dx dz dy).pos.x =
      (if canMoveTo l s (pos.x + dx) pos.z (l.getFloorHeight pos.x pos.z) then pos.x + dx
       else pos.x) ∧
    (playerMove l s h pos vel dx dz dy).vel.x =
      (if canMoveTo l s (pos.x + dx) pos.z (l.getFloorHeight pos.x pos.z) then vel.x
       else 0) ∧
    (playerMove l s h pos vel dx dz dy).pos.z =
      (if canMoveTo l s (playerMove l s h pos vel dx dz dy).pos.x (pos.z + dz)
          (l.getFloorHeight pos.x pos.z) then pos.z + dz
       else pos.z) ∧
    (playerMove l s h pos vel dx dz dy).vel.z =
      (if canMoveTo l s (playerMove l s h pos vel dx dz dy).pos.x (pos.z + dz)
          (l.getFloorHeight pos.x pos.z) then vel.z
       else 0) ∧
    (playerMove corner (11 / 10) (8 / 5) ⟨0, 8 / 5, 0⟩ ⟨1, 0, 1⟩ 4 4 0).pos =
      ⟨0, 8 / 5, 4⟩ ∧
    (playerMove corner (11 / 10) (8 / 5) ⟨0, 8 / 5, 0⟩ ⟨1, 0, 1⟩ 4 4 0).vel =
      ⟨0, 0, 1⟩ := by
  refine ⟨?_, playerMove_pos_x l s h pos vel dx dz dy,
    playerMove_vel_x l s h pos vel dx dz dy, playerMove_pos_z l s h pos vel dx dz dy,
    playerMove_vel_z l s h pos vel dx dz dy, ?_, ?_⟩
  · intro x z cy
    simp only [canMoveTo]
    split_ifs with h1 h2
    · simp [h1]
    · simp [h1, not_le.mpr h2]
    · simp [h1, not_lt.mp h2]
  · norm_num [playerMove, canMoveTo, Level.isWall, Level.getFloorHeight, Level.cellAt,
      jsRound, corner, Cell.base, Cell.wall]
  · norm_num [playerMove, canMoveTo, Level.isWall, Level.getFloorHeight, Level.cellAt,
      jsRound, corner, Cell.base, Cell.wall]

/-- C4 counterexample: the claim says equality Y = floorHeight + offset
implies grounded, but the snap only fires for a strict drop below the
floor plane.  On the one-cell flat level, a vertical step that lands
exactly on the floor plane (y = 8/5 with dy = 0 over floor height 0 and
eye height 8/5) ends with Y equal to floorHeight + offset yet
onGround = false. -/
theorem C4_equality_without_grounded :
    (playerMove flat1 (11 / 10) (8 / 5) ⟨0, 8 / 5, 0⟩ ⟨0, 0, 0⟩ 0 0 0).pos.y =
      flat1.getFloorHeight
        (playerMove flat1 (11 / 10) (8 / 5) ⟨0, 8 / 5, 0⟩ ⟨0, 0, 0⟩ 0 0 0).pos.x
        (playerMove flat1 (11 / 10) (8 / 5) ⟨0, 8 / 5, 0⟩ ⟨0, 0, 0⟩ 0 0 0).pos.z + 8 / 5 ∧
    (playerMove flat1 (11 / 10) (8 / 5) ⟨0, 8 / 5, 0⟩ ⟨0, 0, 0⟩ 0 0 0).onGround = false := by
  norm_num [playerMove, canMoveTo, Level.isWall, Level.getFloorHeight, Level.cellAt,
    jsRound, flat1, Cell.base]

/-- C4 amended: after the vertical integration-and-snap step the agent Y
always satisfies Y >= floorHeight(newX, newZ) + heightOffset, and
whenever the grounded flag is true, equality holds (grounded is set
exactly when the integrated Y fell strictly below the floor plane; an
integrated Y exactly on the floor plane leaves grounded false). -/
theorem C4_grounding (l : Level) (s h : ℚ) (pos vel : Vec3) (dx dz dy : ℚ) :
    (playerMove l s h pos vel dx dz dy).pos.y ≥
      l.getFloorHeight (playerMove l s h pos vel dx dz dy).pos.x
        (playerMove l s h pos vel dx dz dy).pos.z + h ∧
    ((playerMove l s h pos vel dx dz dy).onGround = true →
      (playerMove l s h pos vel dx dz dy).pos.y =
        l.getFloorHeight (playerMove l s h pos vel dx dz dy).pos.x
          (playerMove l s h pos vel dx dz dy).pos.z + h) := by
  simp only [playerMove]
  repeat' split
  all_goals simp_all [le_of_not_lt, le_of_lt]

/-- Witness for C4 amended on the flat one-cell level with a descending
vertical step: the snap fires, so onGround is true and Y sits exactly on
the floor plane. -/
theorem C4_grounding_witness :
    (playerMove flat1 (11 / 10) (8 / 5) ⟨0, 8 / 5, 0⟩ ⟨0, 0, 0⟩ 0 0 (-1)).onGround = true ∧
    (playerMove flat1 (11 / 10) (8 / 5) ⟨0, 8 / 5, 0⟩ ⟨0, 0, 0⟩ 0 0 (-1)).pos.y =
      flat1.getFloorHeight
        (playerMove flat1 (11 / 10) (8 / 5) ⟨0, 8 / 5, 0⟩ ⟨0, 0, 0⟩ 0 0 (-1)).pos.x
        (playerMove flat1 (11 / 10) (8 / 5) ⟨0, 8 / 5, 0⟩ ⟨0, 0, 0⟩ 0 0 (-1)).pos.z + 8 / 5 := by
  have hg : (playerMove flat1 (11 / 10) (8 / 5) ⟨0, 8 / 5, 0⟩ ⟨0, 0, 0⟩ 0 0 (-1)).onGround = true := by
    norm_num [playerMove, canMoveTo, Level.isWall, Level.getFloorHeight, Level.cellAt,
      jsRound, flat1, Cell.base]
  exact ⟨hg, (C4_grounding flat1 (11 / 10) (8 / 5) ⟨0, 8 / 5, 0⟩ ⟨0, 0, 0⟩ 0 0 (-1)).2 hg⟩

/-- C8 counterexample: two projectiles, each on the first tick after
firing, each moving exactly 20 units from its firing origin with no hit
candidates.  The one fired at (990, 0, 0) is destroyed; the one fired at
the world origin stays alive.  Since both have the same travel distance
from their firing origin and neither hit anything, no fixed maximum
travel distance from the firing origin governs destruction: the code
destroys on position.length() > 1000, i.e. distance from the world
origin.  In particular the first projectile had travelled only 20 units,
far under the only fixed constant 1000, and hit nothing, yet the claim
would require it to remain alive. -/
theorem C8_range_is_world_origin_distance :
    ((Projectile.fire id ⟨990, 0, 0⟩ ⟨1, 0, 0⟩).update (1 / 2) [] [] []).1.alive = false ∧
    ((Projectile.fire id ⟨990, 0, 0⟩ ⟨1, 0, 0⟩).update (1 / 2) [] [] []).1.position =
      ⟨1010, 0, 0⟩ ∧
    ((Projectile.fire id ⟨990, 0, 0⟩ ⟨1, 0, 0⟩).update (1 / 2) [] [] []).1.lastPosition =
      ⟨990, 0, 0⟩ ∧
    ((Projectile.fire id ⟨0, 0, 0⟩ ⟨1, 0, 0⟩).update (1 / 2) [] [] []).1.alive = true ∧
    ((Projectile.fire id ⟨0, 0, 0⟩ ⟨1, 0, 0⟩).update (1 / 2) [] [] []).1.position =
      ⟨20, 0, 0⟩ ∧
    ((Projectile.fire id ⟨0, 0, 0⟩ ⟨1, 0, 0⟩).update (1 / 2) [] [] []).1.lastPosition =
      ⟨0, 0, 0⟩ := by
  norm_num [Projectile.fire, Projectile.update, Vec3.normalize, Vec3.scale, Vec3.add,
    Vec3.lenSq, selectHit]

/-- C8 amended: a live projectile ends a tick destroyed exactly when the
tick had a nonzero displacement with a selected hit, or when its new
position lies further than 1000 from the world origin (not from its
firing origin). -/
theorem C8_destroy_iff (p : Projectile) (delta : ℚ) (levelHits : List ℚ)
    (monsterHits : List (ℚ × ℕ)) (monsters : List Monster)
    (halive : p.alive = true) :
    ((p.update delta levelHits monsterHits monsters).1.alive = false ↔
      (((p.direction.scale (p.speed * delta)).lenSq > 0 ∧
          selectHit levelHits monsterHits ≠ none) ∨
        (p.position.add (p.direction.scale (p.speed * delta))).lenSq > 1000000)) := by
  simp only [Projectile.update]
  rw [if_neg (by simp [halive])]
  by_cases hd : (p.direction.scale (p.speed * delta)).lenSq > 0
  · rw [if_pos hd]
    cases hsel : selectHit levelHits monsterHits with
    | none =>
      simp only [hsel]
      by_cases hr : (p.position.add (p.direction.scale (p.speed * delta))).lenSq > 1000000
      · simp [hr, halive, hd]
      · simp [hr, halive, hd]
    | some h =>
      simp only [hsel, Projectile.onHit]
      by_cases hr : (p.position.add (p.direction.scale (p.speed * delta))).lenSq > 1000000
      · simp [hr, hd, hsel]
      · simp [hr, hd, hsel]
  · rw [if_neg hd]
    by_cases hr : (p.position.add (p.direction.scale (p.speed * delta))).lenSq > 1000000
    · simp [hr, halive, hd]
    · simp [hr, halive, hd]

/-- Witness for C8 amended: a projectile fired at the world origin whose
first tick has a wall hit at distance 5 ends the tick destroyed. -/
theorem C8_destroy_iff_witness :
    ((Projectile.fire id ⟨0, 0, 0⟩ ⟨1, 0, 0⟩).update (1 / 2) [5] [] []).1.alive = false := by
  have h := C8_destroy_iff (Projectile.fire id ⟨0, 0, 0⟩ ⟨1, 0, 0⟩) (1 / 2) [5] [] [] rfl
  refine h.mpr (Or.inl ⟨?_, ?_⟩)
  · norm_num [Projectile.fire, Vec3.normalize, Vec3.scale, Vec3.lenSq]
  · simp [selectHit]

/-- The head of a list sorted by increasing distance is a lower bound of
the whole list. -/
theorem sorted_head_min {d : ℚ} {t : List ℚ}
    (hs : List.Pairwise (fun a b : ℚ => a ≤ b) (d :: t)) :
    ∀ x ∈ d :: t, d ≤ x := by
  intro x hx
  rcases List.mem_cons.mp hx with h | h
  · exact h ▸ le_refl d
  · exact (List.pairwise_cons.mp hs).1 x h

/-- Effect of a tick with a selected hit: the projectile is destroyed and
the monster list is damaged at the hit index for a monster hit, untouched
for a wall hit. -/
theorem update_hit_effects (p : Projectile) (delta : ℚ) (levelHits : List ℚ)
    (monsterHits : List (ℚ × ℕ)) (monsters : List Monster) (hsel : HitSel)
    (halive : p.alive = true)
    (hdisp : (p.direction.scale (p.speed * delta)).lenSq > 0)
    (hs : selectHit levelHits monsterHits = some hsel) :
    (p.update delta levelHits monsterHits monsters).1.alive = false ∧
    (p.update delta levelHits monsterHits monsters).2 =
      (match hsel with
       | HitSel.wall _ => monsters
       | HitSel.monster _ i => modifyIdx (fun m => m.takeDamage 20) i monsters) := by
  simp only [Projectile.update]
  rw [if_neg (by simp [halive])]
  rw [if_pos hdisp]
  cases hsel with
  | wall d =>
    simp only [hs, Projectile.onHit]
    constructor
    · split <;> rfl
    · split <;> rfl
  | monster d i =>
    simp only [hs, Projectile.onHit]
    constructor
    · split <;> rfl
    · split <;> rfl

/-- C1: for a live projectile with a positive displacement this tick and
at least one intersected candidate (level surfaces and/or non-dead
agents, the two raycaster result lists each sorted by distance), the
selected hit exists, its distance is a member of the combined candidate
distances and a lower bound of all of them — so the acted-on hit is the
closest regardless of wall/agent kind and of candidate order; the
projectile ends the tick destroyed; a wall hit leaves the monster list
unchanged while an agent hit damages exactly that agent by 20. -/
theorem C1_swept_closest_hit (p : Projectile) (delta : ℚ) (levelHits : List ℚ)
    (monsterHits : List (ℚ × ℕ)) (monsters : List Monster)
    (halive : p.alive = true)
    (hdisp : (p.direction.scale (p.speed * delta)).lenSq > 0)
    (hsortW : List.Pairwise (fun a b : ℚ => a ≤ b) levelHits)
    (hsortM : List.Pairwise (fun a b : ℚ => a ≤ b) (monsterHits.map Prod.fst))
    (hne : ¬ (levelHits = [] ∧ monsterHits = [])) :
    ∃ hsel : HitSel, selectHit levelHits monsterHits = some hsel ∧
      hsel.dist ∈ levelHits ++ monsterHits.map Prod.fst ∧
      (∀ d ∈ levelHits ++ monsterHits.map Prod.fst, hsel.dist ≤ d) ∧
      (p.update delta levelHits monsterHits monsters).1.alive = false ∧
      (∀ d : ℚ, hsel = HitSel.wall d →
        (p.update delta levelHits monsterHits monsters).2 = monsters) ∧
      (∀ (d : ℚ) (i : ℕ), hsel = HitSel.monster d i →
        (p.update delta levelHits monsterHits monsters).2 =
          modifyIdx (fun m => m.takeDamage 20) i monsters) := by
  cases levelHits with
  | nil =>
    cases monsterHits with
    | nil => exact absurd ⟨rfl, rfl⟩ hne
    | cons mh mhs =>
      obtain ⟨md, mi⟩ := mh
      have hs : selectHit [] ((md, mi) :: mhs) = some (HitSel.monster md mi) := rfl
      have heff := update_hit_effects p delta [] ((md, mi) :: mhs) monsters
        (HitSel.monster md mi) halive hdisp hs
      refine ⟨HitSel.monster md mi, hs, ?_, ?_, heff.1, ?_, ?_⟩
      · simp [HitSel.dist]
      · intro d hd
        simp only [List.nil_append] at hd
        exact sorted_head_min hsortM d hd
      · intro d hcontra; cases hcontra
      · intro d i hi
        cases hi
        exact heff.2
  | cons w ws =>
    cases monsterHits with
    | nil =>
      have hs : selectHit (w :: ws) [] = some (HitSel.wall w) := rfl
      have heff := update_hit_effects p delta (w :: ws) [] monsters
        (HitSel.wall w) halive hdisp hs
      refine ⟨HitSel.wall w, hs, ?_, ?_, heff.1, ?_, ?_⟩
      · simp [HitSel.dist]
      · intro d hd
        simp only [List.map_nil, List.append_nil] at hd
        exact sorted_head_min hsortW d hd
      · intro d hd
        cases hd
        exact heff.2
      · intro d i hi; cases hi
    | cons mh mhs =>
      obtain ⟨md, mi⟩ := mh
      by_cases hlt : md < w
      · have hs : selectHit (w :: ws) ((md, mi) :: mhs) = some (HitSel.monster md mi) := by
          simp [selectHit, hlt]
        have heff := update_hit_effects p delta (w :: ws) ((md, mi) :: mhs) monsters
          (HitSel.monster md mi) halive hdisp hs
        refine ⟨HitSel.monster md mi, hs, ?_, ?_, heff.1, ?_, ?_⟩
        · simp [HitSel.dist]
        · intro d hd
          rcases List.mem_append.mp hd with h | h
          · exact le_trans (le_of_lt hlt) (sorted_head_min hsortW d h)
          · exact sorted_head_min hsortM d h
        · intro d hcontra; cases hcontra
        · intro d i hi
          cases hi
          exact heff.2
      · have hs : selectHit (w :: ws) ((md, mi) :: mhs) = some (HitSel.wall w) := by
          simp [selectHit, hlt]
        have heff := update_hit_effects p delta (w :: ws) ((md, mi) :: mhs) monsters
          (HitSel.wall w) halive hdisp hs
        refine ⟨HitSel.wall w, hs, ?_, ?_, heff.1, ?_, ?_⟩
        · simp [HitSel.dist]
        · intro d hd
          rcases List.mem_append.mp hd with h | h
          · exact sorted_head_min hsortW d h
          · exact le_trans (not_lt.mp hlt) (sorted_head_min hsortM d h)
        · intro d hd
          cases hd
          exact heff.2
        · intro d i hi; cases hi

/-- Witness for C1, mirroring spec scenario 3: a wall candidate at
distance 8 and a live-agent candidate at distance 5 on the same swept
segment.  The agent hit is selected, the agent at index 0 is damaged by
20, and the projectile is destroyed. -/
theorem C1_swept_closest_hit_witness :
    ∃ hsel : HitSel, selectHit [8] [(5, 0)] = some hsel ∧
      hsel.dist ∈ [8] ++ ([(5, 0)] : List (ℚ × ℕ)).map Prod.fst ∧
      (∀ d ∈ [8] ++ ([(5, 0)] : List (ℚ × ℕ)).map Prod.fst, hsel.dist ≤ d) ∧
      ((Projectile.fire id ⟨0, 0, 0⟩ ⟨1, 0, 0⟩).update (1 / 4) [8] [(5, 0)]
          [Monster.spawn MKind.imp 10 0]).1.alive = false ∧
      (∀ d : ℚ, hsel = HitSel.wall d →
        ((Projectile.fire id ⟨0, 0, 0⟩ ⟨1, 0, 0⟩).update (1 / 4) [8] [(5, 0)]
            [Monster.spawn MKind.imp 10 0]).2 = [Monster.spawn MKind.imp 10 0]) ∧
      (∀ (d : ℚ) (i : ℕ), hsel = HitSel.monster d i →
        ((Projectile.fire id ⟨0, 0, 0⟩ ⟨1, 0, 0⟩).update (1 / 4) [8] [(5, 0)]
            [Monster.spawn MKind.imp 10 0]).2 =
          modifyIdx (fun m => m.takeDamage 20) i [Monster.spawn MKind.imp 10 0]) :=
  C1_swept_closest_hit (Projectile.fire id ⟨0, 0, 0⟩ ⟨1, 0, 0⟩) (1 / 4) [8] [(5, 0)]
    [Monster.spawn MKind.imp 10 0] rfl
    (by norm_num [Projectile.fire, Vec3.normalize, Vec3.scale, Vec3.lenSq])
    (by simp) (by simp) (by simp)

/-- C9: the instant hitscan damages at most one agent per shot, namely
the first monster in iteration order passing the validity test; the test
holds exactly when the monster is not dead, its reported distance from
the firer is under 50 and the reported angle between the aim direction
and the normalized to-monster vector is under 0.2.  The final conjunct
exhibits concretely that the damaged target is the first match, not the
closest: with two valid targets at reported distances 9 and 1, the
farther one is damaged because it comes first in the list. -/
theorem C9_hitscan_first_match :
    (∀ (sq : ℚ → ℚ) (ang : Vec3 → Vec3 → ℚ) (pp pd : Vec3) (ms : List Monster),
      shootScan sq ang pp pd ms =
        (match firstIdx (hitTest sq ang pp pd) ms with
         | none => ms
         | some i => modifyIdx (fun m => m.takeDamage 20) i ms)) ∧
    (∀ (sq : ℚ → ℚ) (ang : Vec3 → Vec3 → ℚ) (pp pd : Vec3) (m : Monster),
      hitTest sq ang pp pd m = true ↔
        (m.state ≠ MState.dead ∧ sq (Vec3.sub m.position pp).lenSq < 50 ∧
         ang pd ((Vec3.sub m.position pp).normalize sq) < 2 / 10)) ∧
    shootScan id (fun _ _ => 0) ⟨0, 0, 0⟩ ⟨1, 0, 0⟩
        [Monster.spawn MKind.imp 3 0, Monster.spawn MKind.imp 1 0] =
      [(Monster.spawn MKind.imp 3 0).takeDamage 20, Monster.spawn MKind.imp 1 0] := by
  refine ⟨?_, ?_, ?_⟩
  · intro sq ang pp pd ms
    induction ms with
    | nil => rfl
    | cons m rest ih =>
      by_cases hdead : m.state = MState.dead
      · have hht : hitTest sq ang pp pd m = false := by simp [hitTest, hdead]
        simp only [shootScan, if_pos hdead, firstIdx, hht, Bool.false_eq_true,
          if_false, ih]
        cases firstIdx (hitTest sq ang pp pd) rest <;> simp [modifyIdx]
      · by_cases hht : hitTest sq ang pp pd m = true
        · simp only [shootScan, if_neg hdead, hht, if_true, firstIdx]
          simp [modifyIdx]
        · have hht2 : hitTest sq ang pp pd m = false := by
            revert hht
            cases hitTest sq ang pp pd m <;> simp
          simp only [shootScan, if_neg hdead, firstIdx, hht2, Bool.false_eq_true,
            if_false, ih]
          cases firstIdx (hitTest sq ang pp pd) rest <;> simp [modifyIdx]
  · intro sq ang pp pd m
    by_cases hdead : m.state = MState.dead
    · simp [hitTest, hdead]
    · simp [hitTest, hdead]
  · have h1 : hitTest id (fun _ _ => 0) ⟨0, 0, 0⟩ ⟨1, 0, 0⟩ (Monster.spawn MKind.imp 3 0) = true := by
      have : (Monster.spawn MKind.imp 3 0).state = MState.idle := rfl
      norm_num [hitTest, this, Monster.spawn, Vec3.sub, Vec3.lenSq]
      intro hc; cases hc
    have h2 : (Monster.spawn MKind.imp 3 0).state ≠ MState.dead := by
      intro hc; cases hc
    simp only [shootScan, if_neg h2, h1, if_true]

/-- Agreement on everything the movement and collision queries consult:
the wall flag and the floor height (the ceiling height and item flag are
free to differ). -/
def Cell.sameSolid (c₁ c₂ : Cell) : Prop :=
  c₁.isWall = c₂.isWall ∧ c₁.height = c₂.height

/-- Two levels identical except possibly in the ceilHeight (and item
flag) of their cells: same dimensions, same cell size, and cellwise
agreement on wall flag and floor height. -/
def ceilEquiv (l₁ l₂ : Level) : Prop :=
  l₁.rows = l₂.rows ∧ l₁.cols = l₂.cols ∧ l₁.cellSize = l₂.cellSize ∧
  List.Forall₂ (List.Forall₂ Cell.sameSolid) l₁.grid l₂.grid

/-- getD on two Forall2-related lists with related defaults yields
related values. -/
theorem forall2_getD {α : Type} {R : α → α → Prop} {d₁ d₂ : α} (hd : R d₁ d₂) :
    ∀ {l₁ l₂ : List α}, List.Forall₂ R l₁ l₂ → ∀ n : ℕ, R (l₁.getD n d₁) (l₂.getD n d₂) := by
  intro l₁ l₂ hf
  induction hf with
  | nil => intro n; simpa using hd
  | cons hr htail ih =>
    intro n
    cases n with
    | zero => simpa using hr
    | succ k => simpa using ih k

/-- C10: movement and collision never consult the ceiling height.  For
any two levels that agree on dimensions, cell size, wall flags and floor
heights — and may differ arbitrarily in ceilHeight — every collision
query (isWall, getFloorHeight, the step-up test) and every movement
resolution (the player per-axis move with vertical snap, the monster
update) coincide, so an agent can rise above ceilHeight unblocked. -/
theorem C10_ceiling_noninterference (l₁ l₂ : Level) (he : ceilEquiv l₁ l₂) :
    (∀ x z : ℚ, l₁.isWall x z = l₂.isWall x z) ∧
    (∀ x z : ℚ, l₁.getFloorHeight x z = l₂.getFloorHeight x z) ∧
    (∀ s x z cy : ℚ, canMoveTo l₁ s x z cy = canMoveTo l₂ s x z cy) ∧
    (∀ (s h : ℚ) (pos vel : Vec3) (dx dz dy : ℚ),
      playerMove l₁ s h pos vel dx dz dy = playerMove l₂ s h pos vel dx dz dy) ∧
    (∀ (m : Monster) (sq : ℚ → ℚ) (delta : ℚ) (pp : Vec3) (r1 r2 : ℚ),
      m.update l₁ sq delta pp r1 r2 = m.update l₂ sq delta pp r1 r2) := by
  obtain ⟨hr, hc, hs, hg⟩ := he
  have hcell : ∀ gx gz : ℤ, Cell.sameSolid (l₁.cellAt gx gz) (l₂.cellAt gx gz) := by
    intro gx gz
    have houter := forall2_getD (R := List.Forall₂ Cell.sameSolid)
      (List.Forall₂.nil) hg gz.toNat
    exact forall2_getD (R := Cell.sameSolid) ⟨rfl, rfl⟩ houter gx.toNat
  have hW : ∀ x z : ℚ, l₁.isWall x z = l₂.isWall x z := by
    intro x z
    simp only [Level.isWall, hr, hc, hs]
    split
    · exact (hcell _ _).1
    · rfl
  have hF : ∀ x z : ℚ, l₁.getFloorHeight x z = l₂.getFloorHeight x z := by
    intro x z
    simp only [Level.getFloorHeight, hr, hc, hs]
    split
    · exact (hcell _ _).2
    · rfl
  have hCM : ∀ s x z cy : ℚ, canMoveTo l₁ s x z cy = canMoveTo l₂ s x z cy := by
    intro s x z cy
    simp only [canMoveTo, hW, hF]
  refine ⟨hW, hF, hCM, ?_, ?_⟩
  · intro s h pos vel dx dz dy
    simp only [playerMove, hCM, hF]
  · intro m sq delta pp r1 r2
    simp only [Monster.update, hW, hF]

/-- A one-cell level identical to flat1 except for a different (higher)
ceiling height. -/
def flat1HighCeil : Level :=
  { grid := [[⟨false, 0, 99, false⟩]]
    rows := 1
    cols := 1
    cellSize := 4
    monsterSpawns := [] }

/-- Witness for C10: flat1 and flat1HighCeil differ only in ceilHeight
(4 versus 99), and the collision queries and a player move that rises to
y = 11.6 — far above both ceiling heights — coincide on the two. -/
theorem C10_ceiling_noninterference_witness :
    flat1.isWall 0 0 = flat1HighCeil.isWall 0 0 ∧
    flat1.getFloorHeight 0 0 = flat1HighCeil.getFloorHeight 0 0 ∧
    playerMove flat1 (11 / 10) (8 / 5) ⟨0, 8 / 5, 0⟩ ⟨0, 0, 0⟩ 0 0 10 =
      playerMove flat1HighCeil (11 / 10) (8 / 5) ⟨0, 8 / 5, 0⟩ ⟨0, 0, 0⟩ 0 0 10 := by
  have he : ceilEquiv flat1 flat1HighCeil := by
    refine ⟨rfl, rfl, rfl, ?_⟩
    exact List.Forall₂.cons (List.Forall₂.cons ⟨rfl, rfl⟩ List.Forall₂.nil) List.Forall₂.nil
  have h := C10_ceiling_noninterference flat1 flat1HighCeil he
  exact ⟨h.1 0 0, h.2.1 0 0, h.2.2.2.1 (11 / 10) (8 / 5) ⟨0, 8 / 5, 0⟩ ⟨0, 0, 0⟩ 0 0 10⟩
